import Mathlib

/-!
# MedTech AI — formal model of the triage safety logic

This file embeds, in Lean, the parts of the MedTech AI repository that the
triage-safety specification talks about:

* the severity-tier lattice, text normalizer, keyword tier matcher, risk
  fusion engine and action router of the AI symptom-check service
  (`backend/app/services/ai/` — the Python sources are not part of the
  frontend tree; they are modelled from the specification and from the
  behaviour documented in `backend/README.md`, see the doc comments marked
  `Modelled from the spec:`);
* the symptom-checker recommendation logic of
  `src/pages/patient/SymptomChecker.tsx` (`getRecommendation`, `canProceed`);
* the SOS emergency-call dialog state machine of
  `src/components/features/SOSButton.tsx`;
* the `emergency_events` table of `backend/supabase/schema.sql`;
* the empty-input guard of `src/pages/Chat.tsx` (`handleSend`).

Texts are modelled as `List Char` (the character data of a JavaScript /
Python string); machine integers of the sources are modelled as `Nat`.
-/

set_option maxHeartbeats 1600000

namespace MedTech

/-! ## Severity tiers (spec §3)

Modelled from the spec: `SeverityTier` is the totally ordered enum
`NONE < LOW < MEDIUM < HIGH < EMERGENCY` used by the backend AI service
(`backend/app/services/ai/`, sources absent from the frontend tree; the
risk levels are documented in `backend/README.md`). -/

inductive SeverityTier
  | NONE
  | LOW
  | MEDIUM
  | HIGH
  | EMERGENCY
deriving DecidableEq, Repr

/-- Numeric rank of a tier: the position in `NONE < LOW < MEDIUM < HIGH <
EMERGENCY`. -/
def SeverityTier.rank : SeverityTier → Nat
  | .NONE => 0
  | .LOW => 1
  | .MEDIUM => 2
  | .HIGH => 3
  | .EMERGENCY => 4

/-- Tier order as a boolean: `tle a b` holds when `a` is at most as severe
as `b`. -/
def tle (a b : SeverityTier) : Bool := a.rank ≤ b.rank

/-- Maximum of two tiers in the severity order. -/
def tmax (a b : SeverityTier) : SeverityTier :=
  if a.rank ≤ b.rank then b else a

/-- Maximum severity tier occurring in a list (`NONE` for the empty list). -/
def maxTier (l : List SeverityTier) : SeverityTier := l.foldr tmax .NONE

/-! ## Text normalizer (spec §4.2)

Modelled from the spec: `normalize` of the backend AI service. It
"lowercases, strips punctuation except clinically meaningful marks,
collapses whitespace, and preserves token boundaries for multi-word phrase
matching"; by design it does not interpret negation. The Python sources of
the service are absent from the frontend tree. ASCII lowercasing is modelled
by an explicit letter table; the apostrophe is kept as a clinically
meaningful mark (the taxonomy contains contraction phrases containing an apostrophe). -/

def lowerChar : Char → Char
  | 'A' => 'a' | 'B' => 'b' | 'C' => 'c' | 'D' => 'd' | 'E' => 'e' | 'F' => 'f'
  | 'G' => 'g' | 'H' => 'h' | 'I' => 'i' | 'J' => 'j' | 'K' => 'k' | 'L' => 'l'
  | 'M' => 'm' | 'N' => 'n' | 'O' => 'o' | 'P' => 'p' | 'Q' => 'q' | 'R' => 'r'
  | 'S' => 's' | 'T' => 't' | 'U' => 'u' | 'V' => 'v' | 'W' => 'w' | 'X' => 'x'
  | 'Y' => 'y' | 'Z' => 'z'
  | c => c

/-- The apostrophe character (U+0027). -/
def apostrophe : Char := Char.ofNat 39

/-- Characters that survive normalization: letters, digits and the
apostrophe (a clinically meaningful mark); every other character is treated
as punctuation/whitespace. -/
def keepChar (c : Char) : Bool :=
  ('a' ≤ c && c ≤ 'z') || ('A' ≤ c && c ≤ 'Z') || ('0' ≤ c && c ≤ '9')
    || c = apostrophe

/-- Normalization of a single character: kept characters are lowercased,
all others become a space (to be collapsed by tokenization). -/
def normalizeChar (c : Char) : Char :=
  if keepChar c then lowerChar c else ' '

/-- Tokenization worker: `acc` holds the characters of the current token in
reverse order; a space closes the current token (if any), any other
character extends it. -/
def splitTokensAux : List Char → List Char → List (List Char)
  | [], acc => if acc = [] then [] else [acc.reverse]
  | c :: rest, acc =>
    if c = ' ' then
      if acc = [] then splitTokensAux rest []
      else acc.reverse :: splitTokensAux rest []
    else splitTokensAux rest (c :: acc)

/-- Split a character list into its maximal space-free runs, collapsing any
amount of whitespace and dropping empty tokens. -/
def splitTokens (l : List Char) : List (List Char) := splitTokensAux l []

/-- `normalize raw` — the Text Normalizer: lowercase, strip punctuation,
collapse whitespace, return the token list. -/
def normalize (raw : List Char) : List (List Char) :=
  splitTokens (raw.map normalizeChar)

/-! ## Keyword taxonomy and tier matcher (spec §3, §4.1, §4.3)

Modelled from the spec: `SignalRule` and the Tier Matcher of the backend AI
service (sources absent from the frontend tree). A keyword rule maps a
canonical phrase and its aliases to a severity tier; the matcher scans the
normalized token list, and at every position where several phrases match,
the longest phrase is reported while the tier is the maximum over all
matches found. -/

structure SignalRule where
  id : Nat
  canonicalPhrase : List (List Char)
  aliases : List (List (List Char))
  tier : SeverityTier
deriving DecidableEq, Repr

/-- All (phrase, tier) patterns of a taxonomy: each rule contributes its
canonical phrase and all of its aliases at the tier of the rule. -/
def patternsOf (rules : List SignalRule) : List (List (List Char) × SeverityTier) :=
  (rules.map (fun r =>
    (r.canonicalPhrase :: r.aliases).map (fun p => (p, r.tier)))).flatten

/-- A phrase pattern matches at the start of a token suffix when its token
list is an initial segment of the suffix. -/
def patternMatchesAt (p : List (List Char)) (suf : List (List Char)) : Bool :=
  List.isPrefixOf p suf

/-- The patterns that match at the start of the given token suffix. -/
def patternsAt (pats : List (List (List Char) × SeverityTier))
    (suf : List (List Char)) : List (List (List Char) × SeverityTier) :=
  pats.filter (fun pr => patternMatchesAt pr.1 suf)

/-- Keep the longer of the best phrase so far and a new candidate (the
earlier one on equal token counts). -/
def longerPhrase (best : Option (List (List Char))) (p : List (List Char)) :
    Option (List (List Char)) :=
  match best with
  | none => some p
  | some b => if b.length < p.length then some p else best

/-- The longest phrase of a list (the first one among those of maximal
token count), `none` for the empty list. -/
def longestPhrase (l : List (List (List Char))) : Option (List (List Char)) :=
  l.foldl longerPhrase none

/-- One linear pass of the Tier Matcher over the normalized token list:
returns the maximum tier over all matches found together with the reported
phrases (at each matching position, the longest matching phrase). -/
def scanTokens (pats : List (List (List Char) × SeverityTier)) :
    List (List Char) → SeverityTier × List (List (List Char))
  | [] => (.NONE, [])
  | tok :: rest =>
    let here := patternsAt pats (tok :: rest)
    let tail := scanTokens pats rest
    (tmax (maxTier (here.map (fun pr => pr.2))) tail.1,
      match longestPhrase (here.map (fun pr => pr.1)) with
      | some p => p :: tail.2
      | none => tail.2)

/-- Declarative list of all matches of a taxonomy in a token list: every
(phrase, tier) pattern at every position where it matches. -/
def allMatches (pats : List (List (List Char) × SeverityTier))
    (tokens : List (List Char)) : List (List (List Char) × SeverityTier) :=
  (tokens.tails.map (patternsAt pats)).flatten

/-- `MatchEvidence` (spec §3): output of the Tier Matcher — the maximum
matched tier, plus the reported phrases as evidence (`NONE` and the empty
list when nothing matches). -/
structure MatchEvidence where
  tier : SeverityTier
  matchedPhrases : List (List (List Char))
deriving DecidableEq, Repr

/-- `match(normalizedText)` of the Tier Matcher, composed with the
normalizer: the match evidence of a raw input text. -/
def matchEvidence (rules : List SignalRule) (text : List Char) : MatchEvidence :=
  ⟨(scanTokens (patternsOf rules) (normalize text)).1,
   (scanTokens (patternsOf rules) (normalize text)).2⟩

/-- The input text contains a phrase of an `EMERGENCY`-tier rule: some
`EMERGENCY` pattern of the taxonomy matches at some position of the
normalized token list. -/
def containsEmergencyPhrase (rules : List SignalRule) (text : List Char) : Bool :=
  (normalize text).tails.any (fun suf =>
    (patternsOf rules).any (fun pr =>
      pr.2 == SeverityTier.EMERGENCY && patternMatchesAt pr.1 suf))

/-! ## Advisory assessor boundary and risk fusion engine (spec §3, §4.4)

Modelled from the spec: `AdvisoryAssessment` is the result type of the
external advisory assessor (the Gemini call of the backend AI service,
sources absent from the frontend tree); `succeeded = false` records a
timeout or error, in which case `tier` must not be trusted. The spec
confidence in `0..1` is modelled as a percentage. -/

structure AdvisoryAssessment where
  tier : SeverityTier
  rationale : String
  confidence : Nat
  succeeded : Bool
deriving DecidableEq, Repr

/-- Modelled from the spec: `fuse` of the Risk Fusion Engine
(backend AI service, sources absent from the frontend tree).
Keyword `EMERGENCY` is terminal; a failed advisory call is absorbed by the
`MEDIUM` fail-safe floor; otherwise the tiers are combined by maximum. -/
def fuse (evidence : MatchEvidence) (advisory : AdvisoryAssessment) : SeverityTier :=
  if evidence.tier = .EMERGENCY then .EMERGENCY
  else if advisory.succeeded = false then tmax evidence.tier .MEDIUM
  else tmax evidence.tier advisory.tier

/-! ## Action router (spec §4.5) -/

/-- Modelled from the spec: the actions of the Action Router of the backend
AI service (sources absent from the frontend tree); the risk-level/action
table of `backend/README.md` documents the same mapping. -/
inductive TriageAction
  | SelfCareGuidance
  | SuggestAppointment
  | SuggestUrgentCare
  | AutoTriggerEmergencyEvent
deriving DecidableEq, Repr

/-- Modelled from the spec: the Action Router — a pure function from the
fused tier to the recommended or auto-triggered action. -/
def routeAction : SeverityTier → TriageAction
  | .NONE => .SelfCareGuidance
  | .LOW => .SelfCareGuidance
  | .MEDIUM => .SuggestAppointment
  | .HIGH => .SuggestUrgentCare
  | .EMERGENCY => .AutoTriggerEmergencyEvent

/-- Modelled from the spec: whether an action carries a mandatory side
effect (only the auto-triggered Emergency Event creation does; every other
action is a recommendation payload only). -/
def actionHasMandatorySideEffect : TriageAction → Bool
  | .AutoTriggerEmergencyEvent => true
  | _ => false

/-- `TriageDecision` (spec §3), restricted to the fields the safety claims
are about: the fused final tier, the routed action, and the matched-phrase
evidence. (Source flags, correlation id and timestamp are not modelled.) -/
structure TriageDecision where
  finalTier : SeverityTier
  action : TriageAction
  matchedPhrases : List (List (List Char))
deriving DecidableEq, Repr

/-- Modelled from the spec: the triage pipeline of the backend AI service on
a text input — normalizer, tier matcher, risk fusion, action router. -/
def triage (rules : List SignalRule) (text : List Char)
    (advisory : AdvisoryAssessment) : TriageDecision :=
  let ev := matchEvidence rules text
  let ft := fuse ev advisory
  ⟨ft, routeAction ft, ev.matchedPhrases⟩

/-! ## Structured vitals and numeric-threshold rules (spec §3, §4.3, §7) -/

/-- Modelled from the spec: the numeric fields of a structured vitals
payload (absent fields are `none`). -/
structure Vitals where
  spo2 : Option Nat
  heartRate : Option Nat
  temperatureTenths : Option Nat
deriving DecidableEq, Repr

/-- The field a numeric-threshold rule reads. -/
inductive VitalField
  | spo2
  | heartRate
  | temperatureTenths
deriving DecidableEq, Repr

/-- Read one field of a vitals payload. -/
def Vitals.get (v : Vitals) : VitalField → Option Nat
  | .spo2 => v.spo2
  | .heartRate => v.heartRate
  | .temperatureTenths => v.temperatureTenths

/-- Modelled from the spec: a numeric-threshold signal rule (e.g.
SpO₂ < 90 → HIGH), the `numeric-threshold` kind of `SignalRule`. When
`below` is true the rule triggers on a value strictly below the bound,
otherwise on a value strictly above it. -/
structure VitalsRule where
  field : VitalField
  below : Bool
  bound : Nat
  tier : SeverityTier
deriving DecidableEq, Repr

/-- Whether a numeric-threshold rule triggers on a vitals payload; a rule
on an absent field does not trigger. -/
def vitalsRuleTriggered (v : Vitals) (r : VitalsRule) : Bool :=
  match v.get r.field with
  | some x => if r.below then x < r.bound else r.bound < x
  | none => false

/-- The maximum tier over all triggered numeric-threshold rules. -/
def vitalsTier (vrules : List VitalsRule) (v : Vitals) : SeverityTier :=
  maxTier ((vrules.filter (vitalsRuleTriggered v)).map (fun r => r.tier))

/-- Modelled from the spec: "LOW if vitals indicate mild concern" (spec §7)
— the numeric-threshold rules assess the vitals at tier `LOW`. -/
def vitalsIndicateMildConcern (vrules : List VitalsRule) (v : Vitals) : Bool :=
  vitalsTier vrules v == .LOW

/-- A text input is malformed/empty when it contains only whitespace (the
empty-string case of spec §7); mirrors JavaScript `!input.trim()`. -/
def isBlankInput (text : List Char) : Bool :=
  text.all (fun c => c = ' ' || c = '\t' || c = '\n' || c = '\r')

/-- Modelled from the spec: the request entry point of the engine (spec §7).
Malformed or empty input never reaches fusion: the decision is `NONE`
(or `LOW` when the structured vitals indicate mild concern) with
`SelfCareGuidance`; any other input runs the triage pipeline. The function
is total: no input makes it throw. -/
def handleRequest (rules : List SignalRule) (vrules : List VitalsRule)
    (text : List Char) (vitals : Vitals) (advisory : AdvisoryAssessment) :
    TriageDecision :=
  if isBlankInput text then
    let ft : SeverityTier :=
      if vitalsIndicateMildConcern vrules vitals then .LOW else .NONE
    ⟨ft, routeAction ft, []⟩
  else triage rules text advisory

/-! ## The documented keyword taxonomy (`backend/README.md`)

The backend README lists the mandatory safety keywords: the Emergency
keywords always force the `EMERGENCY` risk level, and the high-risk
keywords (e.g. "blood in urine", spec §8 Scenario C) carry tier `HIGH`. -/

/-- Build a keyword rule from a raw phrase (stored normalized, no aliases). -/
def keywordRule (n : Nat) (s : String) (t : SeverityTier) : SignalRule :=
  { id := n, canonicalPhrase := normalize s.toList, aliases := [], tier := t }

/-- The safety taxonomy documented in `backend/README.md`. -/
def readmeRules : List SignalRule :=
  [ keywordRule 1 "chest pain" .EMERGENCY
  , keywordRule 2 "heart attack" .EMERGENCY
  , keywordRule 3 "can\u0027t breathe" .EMERGENCY
  , keywordRule 4 "difficulty breathing" .EMERGENCY
  , keywordRule 5 "stroke" .EMERGENCY
  , keywordRule 6 "seizure" .EMERGENCY
  , keywordRule 7 "unconscious" .EMERGENCY
  , keywordRule 8 "severe bleeding" .EMERGENCY
  , keywordRule 9 "overdose" .EMERGENCY
  , keywordRule 10 "poisoning" .EMERGENCY
  , keywordRule 11 "suicidal ideation" .EMERGENCY
  , keywordRule 12 "high fever" .HIGH
  , keywordRule 13 "blood in urine" .HIGH
  , keywordRule 14 "blood in stool" .HIGH
  , keywordRule 15 "severe pain" .HIGH
  , keywordRule 16 "vision loss" .HIGH
  , keywordRule 17 "confusion" .HIGH
  , keywordRule 18 "severe headache" .HIGH ]

/-! ## Symptom checker (`src/pages/patient/SymptomChecker.tsx`) -/

/-- The `SymptomData` state of the symptom-checker wizard. The severity
slider ranges over `1..10`. -/
structure SymptomData where
  bodyArea : String
  symptoms : List String
  severity : Nat
  duration : String
  frequency : String
  additionalInfo : List String
deriving DecidableEq, Repr

/-- The initial `useState` value of the wizard. -/
def initialSymptomData : SymptomData :=
  { bodyArea := ""
  , symptoms := []
  , severity := 5
  , duration := ""
  , frequency := ""
  , additionalInfo := [] }

/-- A recommendation card of the symptom checker. -/
structure Recommendation where
  level : String
  title : String
  description : String
  action : String
  href : String
deriving DecidableEq, Repr

/-- `getRecommendation` of `SymptomChecker.tsx`: the final recommendation,
computed from the severity slider value. -/
def getRecommendation (d : SymptomData) : Recommendation :=
  if 8 ≤ d.severity then
    { level := "urgent"
    , title := "Seek Immediate Care"
    , description := "Based on your symptoms, we recommend consulting a doctor as soon as possible."
    , action := "Book Emergency Appointment"
    , href := "/patient/appointments" }
  else if 5 ≤ d.severity then
    { level := "moderate"
    , title := "Schedule a Consultation"
    , description := "Your symptoms may require professional evaluation. Consider booking an appointment."
    , action := "Book Appointment"
    , href := "/patient/appointments" }
  else
    { level := "mild"
    , title := "Monitor Your Symptoms"
    , description := "Your symptoms appear mild. Rest and monitor. If symptoms worsen, consult a doctor."
    , action := "Chat with AI Assistant"
    , href := "/patient/chatbot" }

/-- `canProceed` of `SymptomChecker.tsx`: whether the wizard may advance
from the given step with the given data. -/
def canProceed (currentStep : Nat) (d : SymptomData) : Bool :=
  match currentStep with
  | 1 => d.bodyArea != ""
  | 2 => 0 < d.symptoms.length
  | 3 => true
  | 4 => d.duration != "" && d.frequency != ""
  | _ => true

/-! ## Chat empty-input guard (`src/pages/Chat.tsx`) -/

/-- The guard of `handleSend` in `Chat.tsx`: `if (!input.trim()) return;` —
a message is produced only when the input has a non-whitespace character. -/
def handleSendProcessesInput (input : List Char) : Bool :=
  !(isBlankInput input)

/-! ## SOS emergency-call dialog (`src/components/features/SOSButton.tsx`)

The component state is the three `useState` booleans `isOpen`,
`isConfirming`, `isCalling`. Events are the user-reachable interactions:
each dialog button is clickable only in the screen that renders it
(the options screen shows Cancel / Call Emergency when neither confirming
nor calling; the confirmation screen shows Go Back / Confirm Call; the
dialog content is rendered only while the dialog is open), and
`callTimerDone` is the 3-second timeout of `handleEmergencyCall`. -/

structure SOSState where
  isOpen : Bool
  isConfirming : Bool
  isCalling : Bool
deriving DecidableEq, Repr

/-- User-reachable events of the SOS dialog. -/
inductive SOSEvent
  | pressSOS
  | setOpen (v : Bool)
  | pressCancel
  | pressCallEmergency
  | pressGoBack
  | pressConfirmCall
  | callTimerDone
deriving DecidableEq, Repr

/-- The SOS-dialog transition function. A button press outside the screen
that renders the button leaves the state unchanged. `pressConfirmCall` runs
`handleEmergencyCall` (`setIsCalling(true)`); `callTimerDone` is the
`setTimeout` body (`setIsCalling(false); setIsConfirming(false)`). -/
def sosStep (s : SOSState) : SOSEvent → SOSState
  | .pressSOS => { s with isOpen := true }
  | .setOpen v => { s with isOpen := v }
  | .pressCancel =>
    if s.isOpen && !s.isConfirming && !s.isCalling then { s with isOpen := false } else s
  | .pressCallEmergency =>
    if s.isOpen && !s.isConfirming && !s.isCalling then { s with isConfirming := true } else s
  | .pressGoBack =>
    if s.isOpen && s.isConfirming && !s.isCalling then { s with isConfirming := false } else s
  | .pressConfirmCall =>
    if s.isOpen && s.isConfirming && !s.isCalling then { s with isCalling := true } else s
  | .callTimerDone =>
    if s.isCalling then { s with isCalling := false, isConfirming := false } else s

/-- The initial SOS component state: all three booleans start `false`. -/
def sosInit : SOSState := ⟨false, false, false⟩

/-- Run the SOS dialog over a list of events from the initial state. -/
def sosRun (t : List SOSEvent) : SOSState := t.foldl sosStep sosInit

/-! ## Emergency events store (`backend/supabase/schema.sql`) -/

/-- The columns of the `emergency_events` table, transcribed from the
`CREATE TABLE` statement. -/
def emergencyEventsColumns : List String :=
  [ "id", "patient_id", "emergency_type", "description"
  , "latitude", "longitude", "address", "severity", "status", "ai_analysis"
  , "triggered_at", "acknowledged_at", "resolved_at"
  , "responder_id", "responder_notes", "created_at", "updated_at" ]

/-- A row of `emergency_events`, restricted to the key and the
request-identifying payload fields. The UUID primary key (generated fresh
by `uuid_generate_v4()` on every insert) is modelled as a `Nat`. -/
structure EmergencyEventRow where
  id : Nat
  patient_id : Nat
  emergency_type : String
  description : String
  severity : String
  status : String
deriving DecidableEq, Repr

/-- Insert semantics of `emergency_events`: the only uniqueness constraint
in the DDL is the primary key on `id`, so an insert fails only on a
duplicate `id` and otherwise appends the row. -/
def emergencyEventsInsert (tbl : List EmergencyEventRow)
    (row : EmergencyEventRow) : Option (List EmergencyEventRow) :=
  if tbl.any (fun r => r.id == row.id) then none else some (tbl ++ [row])

/-! ## Helper lemmas: the tier lattice -/

theorem tle_tmax_left (a b : SeverityTier) : tle a (tmax a b) = true := by
  cases a <;> cases b <;> decide

theorem tle_tmax_right (a b : SeverityTier) : tle b (tmax a b) = true := by
  cases a <;> cases b <;> decide

theorem tmax_assoc (a b c : SeverityTier) : tmax (tmax a b) c = tmax a (tmax b c) := by
  cases a <;> cases b <;> cases c <;> decide

theorem tmax_none_left (a : SeverityTier) : tmax .NONE a = a := by
  cases a <;> decide

theorem tle_trans {a b c : SeverityTier} (h₁ : tle a b = true) (h₂ : tle b c = true) :
    tle a c = true := by
  simp only [tle, decide_eq_true_eq] at *
  omega

theorem emergency_of_tle {a : SeverityTier} (h : tle .EMERGENCY a = true) :
    a = .EMERGENCY := by
  cases a
  case EMERGENCY => rfl
  all_goals exact absurd h (by decide)

theorem tmax_ne_low (a : SeverityTier) :
    tmax a .MEDIUM ≠ .NONE ∧ tmax a .MEDIUM ≠ .LOW := by
  cases a <;> decide

theorem tle_emergency_right (a : SeverityTier) : tle a .EMERGENCY = true := by
  cases a <;> decide

/-! ## Helper lemmas: maximum over a list of tiers -/

theorem maxTier_append (l₁ l₂ : List SeverityTier) :
    maxTier (l₁ ++ l₂) = tmax (maxTier l₁) (maxTier l₂) := by
  induction l₁ with
  | nil => simp [maxTier, tmax_none_left]
  | cons t l ih =>
    simp only [maxTier, List.cons_append, List.foldr_cons] at *
    rw [ih, tmax_assoc]

theorem tle_maxTier_of_mem {t : SeverityTier} {l : List SeverityTier}
    (h : t ∈ l) : tle t (maxTier l) = true := by
  induction l with
  | nil => cases h
  | cons a l ih =>
    rcases List.mem_cons.mp h with h' | h'
    · subst h'
      exact tle_tmax_left t (maxTier l)
    · have := ih h'
      simp only [maxTier, List.foldr_cons] at *
      exact tle_trans this (tle_tmax_right a _)

theorem maxTier_eq_emergency_of_mem {l : List SeverityTier}
    (h : SeverityTier.EMERGENCY ∈ l) : maxTier l = .EMERGENCY :=
  emergency_of_tle (tle_maxTier_of_mem h)

/-! ## Helper lemmas: the longest-phrase choice -/

theorem longerPhrase_none (p : List (List Char)) : longerPhrase none p = some p := rfl

theorem longerPhrase_some (b p : List (List Char)) :
    longerPhrase (some b) p = if b.length < p.length then some p else some b := rfl

theorem longestPhrase_foldl_spec (l : List (List (List Char)))
    (acc : Option (List (List Char))) :
    ∀ p, l.foldl longerPhrase acc = some p →
      (p ∈ l ∨ acc = some p) ∧
      (∀ q ∈ l, q.length ≤ p.length) ∧
      (∀ b, acc = some b → b.length ≤ p.length) := by
  induction l generalizing acc with
  | nil =>
    intro p hp
    simp only [List.foldl_nil] at hp
    refine ⟨Or.inr hp, by simp, ?_⟩
    intro b hb
    rw [hb] at hp
    cases hp
    exact Nat.le_refl _
  | cons q l ih =>
    intro p hp
    simp only [List.foldl_cons] at hp
    rcases acc with _ | b
    · rw [longerPhrase_none] at hp
      have := ih (some q) p hp
      rcases this with ⟨hmem, hlen, hacc⟩
      refine ⟨?_, ?_, ?_⟩
      · rcases hmem with h | h
        · exact Or.inl (List.mem_cons_of_mem _ h)
        · cases h
          exact Or.inl (List.mem_cons_self _ _)
      · intro r hr
        rcases List.mem_cons.mp hr with h | h
        · subst h
          exact hacc _ rfl
        · exact hlen _ h
      · intro b hb
        cases hb
    · rw [longerPhrase_some] at hp
      by_cases hlt : b.length < q.length
      · rw [if_pos hlt] at hp
        have := ih (some q) p hp
        rcases this with ⟨hmem, hlen, hacc⟩
        refine ⟨?_, ?_, ?_⟩
        · rcases hmem with h | h
          · exact Or.inl (List.mem_cons_of_mem _ h)
          · cases h
            exact Or.inl (List.mem_cons_self _ _)
        · intro r hr
          rcases List.mem_cons.mp hr with h | h
          · subst h
            exact hacc _ rfl
          · exact hlen _ h
        · intro b' hb'
          cases hb'
          exact Nat.le_trans (Nat.le_of_lt hlt) (hacc _ rfl)
      · rw [if_neg hlt] at hp
        have := ih (some b) p hp
        rcases this with ⟨hmem, hlen, hacc⟩
        refine ⟨?_, ?_, ?_⟩
        · rcases hmem with h | h
          · exact Or.inl (List.mem_cons_of_mem _ h)
          · exact Or.inr h
        · intro r hr
          rcases List.mem_cons.mp hr with h | h
          · subst h
            exact Nat.le_trans (Nat.le_of_not_lt hlt) (hacc _ rfl)
          · exact hlen _ h
        · exact hacc

theorem longestPhrase_spec {l : List (List (List Char))} {p : List (List Char)}
    (h : longestPhrase l = some p) :
    p ∈ l ∧ ∀ q ∈ l, q.length ≤ p.length := by
  have := longestPhrase_foldl_spec l none p h
  rcases this with ⟨hmem, hlen, _⟩
  rcases hmem with h' | h'
  · exact ⟨h', hlen⟩
  · cases h'

/-! ## Helper lemmas: the tier-matcher scan -/

theorem scanTokens_nil (pats : List (List (List Char) × SeverityTier)) :
    scanTokens pats [] = (.NONE, []) := rfl

theorem scanTokens_cons (pats : List (List (List Char) × SeverityTier))
    (tok : List Char) (rest : List (List Char)) :
    scanTokens pats (tok :: rest) =
      (tmax (maxTier ((patternsAt pats (tok :: rest)).map (fun pr => pr.2)))
          (scanTokens pats rest).1,
        match longestPhrase ((patternsAt pats (tok :: rest)).map (fun pr => pr.1)) with
        | some p => p :: (scanTokens pats rest).2
        | none => (scanTokens pats rest).2) := rfl

theorem patternsAt_nil {pats : List (List (List Char) × SeverityTier)}
    (hne : ∀ pr ∈ pats, pr.1 ≠ []) : patternsAt pats [] = [] := by
  unfold patternsAt
  rw [List.filter_eq_nil_iff]
  intro pr hpr
  have := hne pr hpr
  unfold patternMatchesAt
  cases hp : pr.1 with
  | nil => exact absurd hp this
  | cons a as => simp [List.isPrefixOf]

theorem allMatches_nil {pats : List (List (List Char) × SeverityTier)}
    (hne : ∀ pr ∈ pats, pr.1 ≠ []) : allMatches pats [] = [] := by
  simp [allMatches, patternsAt_nil hne]

theorem allMatches_cons (pats : List (List (List Char) × SeverityTier))
    (tok : List Char) (rest : List (List Char)) :
    allMatches pats (tok :: rest) =
      patternsAt pats (tok :: rest) ++ allMatches pats rest := by
  simp [allMatches]

/-- The tier computed by the linear scan is the maximum over the tiers of
all matches at all positions. -/
theorem scanTokens_fst_eq_maxTier {pats : List (List (List Char) × SeverityTier)}
    (hne : ∀ pr ∈ pats, pr.1 ≠ []) (tokens : List (List Char)) :
    (scanTokens pats tokens).1 =
      maxTier ((allMatches pats tokens).map (fun pr => pr.2)) := by
  induction tokens with
  | nil =>
    rw [scanTokens_nil, allMatches_nil hne]
    rfl
  | cons tok rest ih =>
    rw [scanTokens_cons, allMatches_cons, List.map_append, maxTier_append, ih]

/-- The phrases reported by the linear scan are exactly the per-position
longest matching phrases. -/
theorem scanTokens_snd_eq_reports {pats : List (List (List Char) × SeverityTier)}
    (hne : ∀ pr ∈ pats, pr.1 ≠ []) (tokens : List (List Char)) :
    (scanTokens pats tokens).2 =
      tokens.tails.filterMap
        (fun suf => longestPhrase ((patternsAt pats suf).map (fun pr => pr.1))) := by
  induction tokens with
  | nil =>
    rw [scanTokens_nil]
    simp [patternsAt_nil hne, longestPhrase]
  | cons tok rest ih =>
    rw [scanTokens_cons]
    simp only [List.tails, List.filterMap_cons]
    cases h : longestPhrase ((patternsAt pats (tok :: rest)).map (fun pr => pr.1)) with
    | none => simpa [h] using ih
    | some p => simpa [h] using ih

/-! ## Helper lemmas: the normalizer -/

theorem lowerChar_idem (c : Char) : lowerChar (lowerChar c) = lowerChar c := by
  unfold lowerChar
  split
  all_goals try rfl
  all_goals (rename_i h; split at h <;> simp_all)

theorem keepChar_lowerChar (c : Char) : keepChar (lowerChar c) = keepChar c := by
  unfold lowerChar
  split <;> rfl

theorem normalizeChar_lowerChar (c : Char) :
    normalizeChar (lowerChar c) = normalizeChar c := by
  unfold normalizeChar
  rw [keepChar_lowerChar]
  by_cases h : keepChar c = true
  · rw [if_pos h, if_pos h, lowerChar_idem]
  · rw [if_neg h, if_neg h]

/-- Normalization is invariant under lowercasing the raw input: two inputs
that differ only in letter case have the same normal form. -/
theorem normalize_map_lowerChar (s : List Char) :
    normalize (s.map lowerChar) = normalize s := by
  unfold normalize
  rw [List.map_map]
  congr 1
  exact List.map_congr_left (fun c _ => normalizeChar_lowerChar c)

/-! ## Helper lemmas: the SOS dialog state machine -/

theorem sosRun_append_singleton (t : List SOSEvent) (e : SOSEvent) :
    sosRun (t ++ [e]) = sosStep (sosRun t) e := by
  simp [sosRun, List.foldl_append]

/-- Trace structure of the SOS dialog: a confirming state proves an earlier
Call Emergency press, and a calling state proves a Call Emergency press
followed, later, by a Confirm Call press. -/
theorem sos_trace_structure (t : List SOSEvent) :
    ((sosRun t).isConfirming = true →
      ∃ l₁ l₂, t = l₁ ++ SOSEvent.pressCallEmergency :: l₂) ∧
    ((sosRun t).isCalling = true →
      ∃ l₁ l₂ l₃,
        t = l₁ ++ SOSEvent.pressCallEmergency ::
          (l₂ ++ SOSEvent.pressConfirmCall :: l₃)) := by
  induction t using List.reverseRecOn with
  | nil => refine ⟨fun h => ?_, fun h => ?_⟩ <;> cases h
  | append_singleton t e ih =>
    rw [sosRun_append_singleton]
    rcases ih with ⟨ihA, ihB⟩
    have extendA : (∃ l₁ l₂, t = l₁ ++ SOSEvent.pressCallEmergency :: l₂) →
        ∃ l₁ l₂, t ++ [e] = l₁ ++ SOSEvent.pressCallEmergency :: l₂ := by
      rintro ⟨l₁, l₂, rfl⟩
      exact ⟨l₁, l₂ ++ [e], by simp⟩
    have extendB : (∃ l₁ l₂ l₃,
          t = l₁ ++ SOSEvent.pressCallEmergency ::
            (l₂ ++ SOSEvent.pressConfirmCall :: l₃)) →
        ∃ l₁ l₂ l₃, t ++ [e] = l₁ ++ SOSEvent.pressCallEmergency ::
            (l₂ ++ SOSEvent.pressConfirmCall :: l₃) := by
      rintro ⟨l₁, l₂, l₃, rfl⟩
      exact ⟨l₁, l₂, l₃ ++ [e], by simp⟩
    cases e with
    | pressSOS =>
      constructor
      · intro h
        exact extendA (ihA h)
      · intro h
        exact extendB (ihB h)
    | setOpen v =>
      constructor
      · intro h
        exact extendA (ihA h)
      · intro h
        exact extendB (ihB h)
    | pressCancel =>
      constructor
      · intro h
        refine extendA (ihA ?_)
        simp only [sosStep] at h
        split at h <;> simp_all
      · intro h
        refine extendB (ihB ?_)
        simp only [sosStep] at h
        split at h <;> simp_all
    | pressCallEmergency =>
      constructor
      · intro _
        exact ⟨t, [], by simp⟩
      · intro h
        refine extendB (ihB ?_)
        simp only [sosStep] at h
        split at h <;> simp_all
    | pressGoBack =>
      constructor
      · intro h
        refine extendA (ihA ?_)
        simp only [sosStep] at h
        split at h <;> simp_all
      · intro h
        refine extendB (ihB ?_)
        simp only [sosStep] at h
        split at h <;> simp_all
    | pressConfirmCall =>
      constructor
      · intro h
        refine extendA (ihA ?_)
        simp only [sosStep] at h
        split at h <;> simp_all
      · intro h
        simp only [sosStep] at h
        split at h
        · rename_i hguard
          simp only [Bool.and_eq_true, Bool.not_eq_true] at hguard
          obtain ⟨l₁, l₂, rfl⟩ := ihA hguard.1.2
          exact ⟨l₁, l₂, [], by simp⟩
        · obtain ⟨l₁, l₂, l₃, rfl⟩ := ihB h
          exact ⟨l₁, l₂, l₃ ++ [SOSEvent.pressConfirmCall], by simp⟩
    | callTimerDone =>
      constructor
      · intro h
        refine extendA (ihA ?_)
        simp only [sosStep] at h
        split at h <;> simp_all
      · intro h
        refine extendB (ihB ?_)
        simp only [sosStep] at h
        split at h <;> simp_all

/-! ## Demonstration data for the claim witnesses -/

/-- A successful advisory call that assesses the risk as `LOW`. -/
def advisoryLowOk : AdvisoryAssessment :=
  ⟨.LOW, "symptoms sound mild", 90, true⟩

/-- A failed/timed-out advisory call (its tier field must not be trusted). -/
def advisoryFailed : AdvisoryAssessment := ⟨.NONE, "", 0, false⟩

/-! ## Claim theorems -/

/-- C1: for every input whose text contains an `EMERGENCY`-tier phrase of
the taxonomy, the triage pipeline produces `finalTier = EMERGENCY`,
whatever the advisory assessor returned — including an advisory `LOW` or an
advisory failure; no advisory value can downgrade this outcome. (The
hypothesis that taxonomy phrases are nonempty rules out the degenerate
empty phrase.) -/
theorem C1_emergency_phrase_forces_emergency
    (rules : List SignalRule) (text : List Char) (advisory : AdvisoryAssessment)
    (hne : ∀ pr ∈ patternsOf rules, pr.1 ≠ [])
    (h : containsEmergencyPhrase rules text = true) :
    (triage rules text advisory).finalTier = .EMERGENCY := by
  unfold containsEmergencyPhrase at h
  rw [List.any_eq_true] at h
  obtain ⟨suf, hsuf, hinner⟩ := h
  rw [List.any_eq_true] at hinner
  obtain ⟨pr, hpr, hcond⟩ := hinner
  rw [Bool.and_eq_true, beq_iff_eq] at hcond
  obtain ⟨htier, hmatch⟩ := hcond
  have hmemAt : pr ∈ patternsAt (patternsOf rules) suf :=
    List.mem_filter.mpr ⟨hpr, hmatch⟩
  have hmemAll : pr ∈ allMatches (patternsOf rules) (normalize text) :=
    List.mem_flatten.mpr ⟨_, List.mem_map_of_mem _ hsuf, hmemAt⟩
  have hmemTier : SeverityTier.EMERGENCY ∈
      (allMatches (patternsOf rules) (normalize text)).map (fun pr => pr.2) := by
    rw [← htier]
    exact List.mem_map_of_mem _ hmemAll
  have hev : (matchEvidence rules text).tier = .EMERGENCY := by
    unfold matchEvidence
    rw [scanTokens_fst_eq_maxTier hne]
    exact maxTier_eq_emergency_of_mem hmemTier
  simp [triage, fuse, hev]

/-- C1 witness: `"I have chest pain"` contains the `EMERGENCY` phrase
"chest pain" of the documented taxonomy; the pipeline answers `EMERGENCY`
both against a successful advisory `LOW` and against a failed advisory. -/
theorem C1_emergency_phrase_forces_emergency_witness :
    (∀ pr ∈ patternsOf readmeRules, pr.1 ≠ []) ∧
    containsEmergencyPhrase readmeRules ("I have chest pain".toList) = true ∧
    (triage readmeRules ("I have chest pain".toList) advisoryLowOk).finalTier
      = .EMERGENCY ∧
    (triage readmeRules ("I have chest pain".toList) advisoryFailed).finalTier
      = .EMERGENCY :=
  ⟨by decide, by decide,
   C1_emergency_phrase_forces_emergency readmeRules ("I have chest pain".toList)
     advisoryLowOk (by decide) (by decide),
   C1_emergency_phrase_forces_emergency readmeRules ("I have chest pain".toList)
     advisoryFailed (by decide) (by decide)⟩

/-- C2: when the advisory call failed or timed out, the fused tier is
`max(evidence.tier, MEDIUM)`; in particular with no keyword match
(evidence `NONE`) the result is `MEDIUM`, and the result is never `NONE`
or `LOW`. -/
theorem C2_advisory_failure_failsafe_floor
    (rules : List SignalRule) (text : List Char) (advisory : AdvisoryAssessment)
    (hfail : advisory.succeeded = false) :
    (triage rules text advisory).finalTier
      = tmax (matchEvidence rules text).tier .MEDIUM ∧
    ((matchEvidence rules text).tier = .NONE →
      (triage rules text advisory).finalTier = .MEDIUM) ∧
    (triage rules text advisory).finalTier ≠ .NONE ∧
    (triage rules text advisory).finalTier ≠ .LOW := by
  have h1 : (triage rules text advisory).finalTier
      = tmax (matchEvidence rules text).tier .MEDIUM := by
    simp only [triage, fuse, hfail]
    by_cases hev : (matchEvidence rules text).tier = .EMERGENCY
    · rw [if_pos hev, hev]
      decide
    · rw [if_neg hev]
      simp
  refine ⟨h1, ?_, ?_, ?_⟩
  · intro h0
    rw [h1, h0]
    decide
  · rw [h1]
    exact (tmax_ne_low _).1
  · rw [h1]
    exact (tmax_ne_low _).2

/-- C2 witness: `"tired lately"` matches no keyword; with the failed
advisory the pipeline answers `MEDIUM`. -/
theorem C2_advisory_failure_failsafe_floor_witness :
    advisoryFailed.succeeded = false ∧
    (matchEvidence readmeRules ("tired lately".toList)).tier = .NONE ∧
    (triage readmeRules ("tired lately".toList) advisoryFailed).finalTier
      = .MEDIUM :=
  ⟨rfl, by decide,
   (C2_advisory_failure_failsafe_floor readmeRules ("tired lately".toList)
     advisoryFailed rfl).2.1 (by decide)⟩

/-- C3: the fused final tier is always at least the keyword evidence tier;
when the advisory call succeeded it is also at least the advisory tier, and
when it failed it is at least `MEDIUM`. -/
theorem C3_final_tier_monotone
    (rules : List SignalRule) (text : List Char) (advisory : AdvisoryAssessment) :
    tle (matchEvidence rules text).tier
        (triage rules text advisory).finalTier = true ∧
    (advisory.succeeded = true →
      tle advisory.tier (triage rules text advisory).finalTier = true) ∧
    (advisory.succeeded = false →
      tle .MEDIUM (triage rules text advisory).finalTier = true) := by
  have hft : (triage rules text advisory).finalTier
      = fuse (matchEvidence rules text) advisory := by
    simp [triage]
  rw [hft]
  unfold fuse
  by_cases hev : (matchEvidence rules text).tier = .EMERGENCY
  · rw [if_pos hev]
    exact ⟨by rw [hev]; decide,
      fun _ => tle_emergency_right _, fun _ => tle_emergency_right _⟩
  · rw [if_neg hev]
    by_cases hs : advisory.succeeded = false
    · rw [if_pos hs]
      refine ⟨tle_tmax_left _ _, ?_, fun _ => tle_tmax_right _ _⟩
      intro htrue
      rw [htrue] at hs
      cases hs
    · rw [if_neg hs]
      refine ⟨tle_tmax_left _ _, fun _ => tle_tmax_right _ _, ?_⟩
      intro hfalse
      exact absurd hfalse hs

/-- C3 witness: `"blood in urine"` carries keyword tier `HIGH`; against a
successful advisory `LOW` the final tier is at least both signals (spec §8
Scenario C: the keyword `HIGH` overrides). -/
theorem C3_final_tier_monotone_witness :
    tle (matchEvidence readmeRules ("blood in urine".toList)).tier
        (triage readmeRules ("blood in urine".toList) advisoryLowOk).finalTier
      = true ∧
    advisoryLowOk.succeeded = true ∧
    tle advisoryLowOk.tier
        (triage readmeRules ("blood in urine".toList) advisoryLowOk).finalTier
      = true ∧
    (triage readmeRules ("blood in urine".toList) advisoryLowOk).finalTier
      = .HIGH :=
  ⟨(C3_final_tier_monotone readmeRules ("blood in urine".toList) advisoryLowOk).1,
   rfl,
   (C3_final_tier_monotone readmeRules ("blood in urine".toList) advisoryLowOk).2.1 rfl,
   by decide⟩

/-- Two emergency events written by duplicate invocations of the same
request: the payload (patient, type, description, severity, status) is
identical, while `uuid_generate_v4()` assigns a fresh primary key to each
insert. -/
def sosDuplicateEventA : EmergencyEventRow :=
  ⟨101, 7, "medical", "SOS triggered from symptom check", "critical", "triggered"⟩

/-- See `sosDuplicateEventA`: the second, identical invocation. -/
def sosDuplicateEventB : EmergencyEventRow :=
  ⟨102, 7, "medical", "SOS triggered from symptom check", "critical", "triggered"⟩

/-- C4 counterexample: the `emergency_events` table has no `correlation_id`
column, and two inserts carrying an identical payload (the rows differ only
in the auto-generated primary key) both succeed, leaving two stored events
— not "exactly one", as the claim asserts. -/
theorem C4_no_idempotency_counterexample :
    "correlation_id" ∉ emergencyEventsColumns ∧
    sosDuplicateEventA.patient_id = sosDuplicateEventB.patient_id ∧
    sosDuplicateEventA.description = sosDuplicateEventB.description ∧
    emergencyEventsInsert [] sosDuplicateEventA = some [sosDuplicateEventA] ∧
    emergencyEventsInsert [sosDuplicateEventA] sosDuplicateEventB
      = some [sosDuplicateEventA, sosDuplicateEventB] ∧
    [sosDuplicateEventA, sosDuplicateEventB].length = 2 :=
  ⟨by decide, rfl, rfl, by decide, by decide, rfl⟩

/-- C4 (amended): duplicate emergency invocations are not deduplicated.
The schema keys `emergency_events` only by its auto-generated UUID primary
key; there is no `correlation_id` column and no create-if-absent
constraint, so any two invocations (which receive distinct fresh ids) each
insert their own event. -/
theorem C4_duplicate_emergency_events_both_insert
    (r₁ r₂ : EmergencyEventRow) (h : r₁.id ≠ r₂.id) :
    emergencyEventsInsert [] r₁ = some [r₁] ∧
    emergencyEventsInsert [r₁] r₂ = some [r₁, r₂] ∧
    "correlation_id" ∉ emergencyEventsColumns := by
  refine ⟨rfl, ?_, by decide⟩
  simp [emergencyEventsInsert, beq_iff_eq, h]

/-- C4 witness: the two concrete duplicate rows are both stored. -/
theorem C4_duplicate_emergency_events_both_insert_witness :
    sosDuplicateEventA.id ≠ sosDuplicateEventB.id ∧
    emergencyEventsInsert [] sosDuplicateEventA = some [sosDuplicateEventA] ∧
    emergencyEventsInsert [sosDuplicateEventA] sosDuplicateEventB
      = some [sosDuplicateEventA, sosDuplicateEventB] :=
  ⟨by decide,
   (C4_duplicate_emergency_events_both_insert sosDuplicateEventA sosDuplicateEventB
     (by decide)).1,
   (C4_duplicate_emergency_events_both_insert sosDuplicateEventA sosDuplicateEventB
     (by decide)).2.1⟩

/-- C5: the action router is a pure function of the fused tier, mapping
`NONE` and `LOW` to `SelfCareGuidance`, `MEDIUM` to `SuggestAppointment`,
`HIGH` to `SuggestUrgentCare` and `EMERGENCY` to
`AutoTriggerEmergencyEvent`; only the `EMERGENCY` transition carries a
mandatory side effect, and within the pipeline the action is exactly the
router applied to the final tier. -/
theorem C5_action_router_mapping :
    routeAction .NONE = .SelfCareGuidance ∧
    routeAction .LOW = .SelfCareGuidance ∧
    routeAction .MEDIUM = .SuggestAppointment ∧
    routeAction .HIGH = .SuggestUrgentCare ∧
    routeAction .EMERGENCY = .AutoTriggerEmergencyEvent ∧
    (∀ t : SeverityTier,
      actionHasMandatorySideEffect (routeAction t)
        = decide (t = .EMERGENCY)) ∧
    (∀ (rules : List SignalRule) (text : List Char)
        (advisory : AdvisoryAssessment),
      (triage rules text advisory).action
        = routeAction ((triage rules text advisory).finalTier)) := by
  refine ⟨rfl, rfl, rfl, rfl, rfl, ?_, ?_⟩
  · intro t
    cases t <;> rfl
  · intro rules text advisory
    simp [triage]

/-- A two-rule taxonomy with overlapping phrases at the same position: the
longer phrase carries the lower tier. -/
def overlapPats : List (List (List Char) × SeverityTier) :=
  patternsOf
    [ keywordRule 21 "chest pain sensation" .LOW
    , keywordRule 22 "chest pain" .EMERGENCY ]

/-- The token list on which both overlapping phrases match at position 0. -/
def overlapTokens : List (List Char) :=
  normalize ("chest pain sensation".toList)

/-- C6: the tier produced by the matcher is the maximum tier over *all*
matches found — not the tier of the longest (or first) match — while the
phrase reported at each position is a longest matching phrase there. -/
theorem C6_longest_reported_max_tier
    (pats : List (List (List Char) × SeverityTier)) (tokens : List (List Char))
    (hne : ∀ pr ∈ pats, pr.1 ≠ []) :
    (scanTokens pats tokens).1
      = maxTier ((allMatches pats tokens).map (fun pr => pr.2)) ∧
    (scanTokens pats tokens).2
      = tokens.tails.filterMap
          (fun suf => longestPhrase ((patternsAt pats suf).map (fun pr => pr.1))) ∧
    (∀ (suf : List (List Char)) (p : List (List Char)),
      longestPhrase ((patternsAt pats suf).map (fun pr => pr.1)) = some p →
        p ∈ (patternsAt pats suf).map (fun pr => pr.1) ∧
        ∀ q ∈ (patternsAt pats suf).map (fun pr => pr.1),
          q.length ≤ p.length) :=
  ⟨scanTokens_fst_eq_maxTier hne tokens,
   scanTokens_snd_eq_reports hne tokens,
   fun _ _ h => longestPhrase_spec h⟩

/-- C6 witness: on "chest pain sensation", the longer `LOW` phrase is the
one reported, while the tier is `EMERGENCY`, the maximum over all matches
(here from the shorter overlapping phrase "chest pain"). -/
theorem C6_longest_reported_max_tier_witness :
    (∀ pr ∈ overlapPats, pr.1 ≠ []) ∧
    (scanTokens overlapPats overlapTokens).1
      = maxTier ((allMatches overlapPats overlapTokens).map (fun pr => pr.2)) ∧
    (scanTokens overlapPats overlapTokens).1 = .EMERGENCY ∧
    (scanTokens overlapPats overlapTokens).2
      = [normalize ("chest pain sensation".toList)] :=
  ⟨by decide,
   (C6_longest_reported_max_tier overlapPats overlapTokens (by decide)).1,
   by decide, by decide⟩

/-- C7: matching is invariant under normalization — any two inputs with the
same normal form (in particular inputs differing only in letter case,
punctuation or extra whitespace) yield identical `MatchEvidence`; the
normal form is invariant under lowercasing; "Chest Pain!!" and
"chest pain" give identical evidence; and negation is not interpreted:
"no chest pain" yields the same `EMERGENCY` evidence as "chest pain". -/
theorem C7_normalization_invariance
    (rules : List SignalRule) (s₁ s₂ : List Char)
    (h : normalize s₁ = normalize s₂) :
    matchEvidence rules s₁ = matchEvidence rules s₂ ∧
    (∀ s : List Char,
      matchEvidence rules (s.map lowerChar) = matchEvidence rules s) ∧
    normalize ("Chest Pain!!".toList) = normalize ("chest pain".toList) ∧
    matchEvidence readmeRules ("Chest Pain!!".toList)
      = matchEvidence readmeRules ("chest pain".toList) ∧
    matchEvidence readmeRules ("no chest pain".toList)
      = matchEvidence readmeRules ("chest pain".toList) ∧
    (matchEvidence readmeRules ("no chest pain".toList)).tier = .EMERGENCY := by
  refine ⟨?_, ?_, by decide, by decide, by decide, by decide⟩
  · unfold matchEvidence
    rw [h]
  · intro s
    unfold matchEvidence
    rw [normalize_map_lowerChar]

/-- C7 witness: a concrete pair differing in case, punctuation and extra
whitespace, with identical normal forms and identical evidence. -/
theorem C7_normalization_invariance_witness :
    normalize ("CHEST   pain!?!".toList) = normalize ("chest pain".toList) ∧
    matchEvidence readmeRules ("CHEST   pain!?!".toList)
      = matchEvidence readmeRules ("chest pain".toList) :=
  ⟨by decide,
   (C7_normalization_invariance readmeRules ("CHEST   pain!?!".toList)
     ("chest pain".toList) (by decide)).1⟩

/-- C8: on malformed/empty (all-whitespace) input the engine does not run
the fusion pipeline and returns `finalTier = NONE` — or `LOW` when the
structured vitals indicate mild concern — with action `SelfCareGuidance`
(`handleRequest` is a total function: it never throws). On the same inputs
the chat `handleSend` guard produces no message, and the symptom-checker
wizard with its empty initial data cannot advance past steps 1, 2 or 4. -/
theorem C8_malformed_input_safe_default
    (rules : List SignalRule) (vrules : List VitalsRule) (vitals : Vitals)
    (advisory : AdvisoryAssessment) (text : List Char)
    (h : isBlankInput text = true) :
    ((handleRequest rules vrules text vitals advisory).finalTier = .NONE ∨
      (handleRequest rules vrules text vitals advisory).finalTier = .LOW) ∧
    ((handleRequest rules vrules text vitals advisory).finalTier = .LOW ↔
      vitalsIndicateMildConcern vrules vitals = true) ∧
    (handleRequest rules vrules text vitals advisory).action
      = .SelfCareGuidance ∧
    handleSendProcessesInput text = false ∧
    canProceed 1 initialSymptomData = false ∧
    canProceed 2 initialSymptomData = false ∧
    canProceed 4 initialSymptomData = false := by
  unfold handleRequest
  rw [if_pos h]
  by_cases hm : vitalsIndicateMildConcern vrules vitals = true
  · rw [if_pos hm]
    refine ⟨Or.inr rfl, ?_, rfl, ?_, rfl, rfl, rfl⟩
    · exact ⟨fun _ => hm, fun _ => rfl⟩
    · unfold handleSendProcessesInput
      rw [h]
      rfl
  · rw [if_neg hm]
    refine ⟨Or.inl rfl, ?_, rfl, ?_, rfl, rfl, rfl⟩
    · constructor
      · intro hfalse
        cases hfalse
      · intro htrue
        exact absurd htrue hm
    · unfold handleSendProcessesInput
      rw [h]
      rfl

/-- A normal structured-vitals payload: no threshold rule triggers. -/
def demoVitalsNormal : Vitals := ⟨some 97, some 72, some 368⟩

/-- A vitals payload with a mildly elevated heart rate. -/
def demoVitalsMild : Vitals := ⟨some 97, some 112, some 368⟩

/-- Demonstration numeric-threshold rules: SpO₂ below 90 is `HIGH`
(spec §3), a heart rate above 100 is mild (`LOW`) concern. -/
def demoVitalsRules : List VitalsRule :=
  [ ⟨.spo2, true, 90, .HIGH⟩
  , ⟨.heartRate, false, 100, .LOW⟩ ]

/-- C8 witness: on the all-whitespace input, the engine answers `NONE` /
`SelfCareGuidance` with normal vitals and `LOW` / `SelfCareGuidance` with
mildly concerning vitals, and the chat guard drops the message. -/
theorem C8_malformed_input_safe_default_witness :
    isBlankInput ("   ".toList) = true ∧
    (handleRequest readmeRules demoVitalsRules ("   ".toList) demoVitalsNormal
      advisoryFailed).finalTier = .NONE ∧
    (handleRequest readmeRules demoVitalsRules ("   ".toList) demoVitalsMild
      advisoryFailed).finalTier = .LOW ∧
    (handleRequest readmeRules demoVitalsRules ("   ".toList) demoVitalsMild
      advisoryFailed).action = .SelfCareGuidance ∧
    handleSendProcessesInput ("   ".toList) = false :=
  ⟨by decide,
   by
     rcases (C8_malformed_input_safe_default readmeRules demoVitalsRules
       demoVitalsNormal advisoryFailed ("   ".toList) (by decide)).1 with h | h
     · exact h
     · exact absurd ((C8_malformed_input_safe_default readmeRules demoVitalsRules
         demoVitalsNormal advisoryFailed ("   ".toList) (by decide)).2.1.mp h)
         (by decide),
   by
     have hiff := (C8_malformed_input_safe_default readmeRules demoVitalsRules
       demoVitalsMild advisoryFailed ("   ".toList) (by decide)).2.1
     exact hiff.mpr (by decide),
   (C8_malformed_input_safe_default readmeRules demoVitalsRules
     demoVitalsMild advisoryFailed ("   ".toList) (by decide)).2.2.1,
   (C8_malformed_input_safe_default readmeRules demoVitalsRules
     demoVitalsMild advisoryFailed ("   ".toList) (by decide)).2.2.2.1⟩

/-- C9: the symptom-checker recommendation depends only on the numeric
severity slider value — two states with equal severity get the identical
recommendation record, whatever the body area, symptom list, duration or
frequency — and the boundaries are: severity ≥ 8 urgent, severity ≥ 5
moderate, lower mild. -/
theorem C9_recommendation_depends_only_on_severity :
    (∀ d₁ d₂ : SymptomData, d₁.severity = d₂.severity →
      getRecommendation d₁ = getRecommendation d₂) ∧
    (∀ d : SymptomData, 8 ≤ d.severity →
      (getRecommendation d).level = "urgent") ∧
    (∀ d : SymptomData, 5 ≤ d.severity → d.severity < 8 →
      (getRecommendation d).level = "moderate") ∧
    (∀ d : SymptomData, d.severity < 5 →
      (getRecommendation d).level = "mild") := by
  refine ⟨?_, ?_, ?_, ?_⟩
  · intro d₁ d₂ h
    unfold getRecommendation
    rw [h]
  · intro d h
    unfold getRecommendation
    rw [if_pos h]
  · intro d h5 h8
    unfold getRecommendation
    rw [if_neg (by omega), if_pos h5]
  · intro d h
    unfold getRecommendation
    rw [if_neg (by omega), if_neg (by omega)]

/-- Severity 9, chest symptoms. -/
def demoSevere : SymptomData :=
  ⟨"chest", ["Chest pain"], 9, "today", "constant", []⟩

/-- Severity 9 again, with every other field different. -/
def demoSevereAlt : SymptomData :=
  ⟨"general", ["Fever", "Fatigue"], 9, "month", "rare", ["recent travel"]⟩

/-- Severity 6. -/
def demoModerate : SymptomData :=
  ⟨"head", ["Headache"], 6, "week", "frequent", []⟩

/-- Severity 2. -/
def demoMild : SymptomData :=
  ⟨"skin", ["Rash"], 2, "2-3days", "occasional", []⟩

/-- C9 witness: equal severities give the identical recommendation despite
all other fields differing, and the three severity bands are realized. -/
theorem C9_recommendation_depends_only_on_severity_witness :
    demoSevere.severity = demoSevereAlt.severity ∧
    getRecommendation demoSevere = getRecommendation demoSevereAlt ∧
    (getRecommendation demoSevere).level = "urgent" ∧
    (getRecommendation demoModerate).level = "moderate" ∧
    (getRecommendation demoMild).level = "mild" :=
  ⟨rfl,
   C9_recommendation_depends_only_on_severity.1 demoSevere demoSevereAlt rfl,
   C9_recommendation_depends_only_on_severity.2.1 demoSevere (by decide),
   C9_recommendation_depends_only_on_severity.2.2.1 demoModerate
     (by decide) (by decide),
   C9_recommendation_depends_only_on_severity.2.2.2 demoMild (by decide)⟩

/-- C10: the SOS calling state is reachable only through a Call Emergency
press followed, later, by a Confirm Call press — every run of the dialog
that ends calling decomposes around those two presses in that order — and
Cancel or Go Back never put a non-calling state into the calling state;
Go Back moreover leaves the confirmation screen (or changes nothing when
pressed outside it). -/
theorem C10_call_requires_two_confirmations :
    (∀ t : List SOSEvent, (sosRun t).isCalling = true →
      ∃ l₁ l₂ l₃,
        t = l₁ ++ SOSEvent.pressCallEmergency ::
          (l₂ ++ SOSEvent.pressConfirmCall :: l₃)) ∧
    (∀ s : SOSState, s.isCalling = false →
      (sosStep s SOSEvent.pressCancel).isCalling = false ∧
      (sosStep s SOSEvent.pressGoBack).isCalling = false) ∧
    (∀ s : SOSState,
      (sosStep s SOSEvent.pressGoBack).isConfirming = false ∨
      sosStep s SOSEvent.pressGoBack = s) := by
  refine ⟨?_, ?_, ?_⟩
  · intro t h
    exact (sos_trace_structure t).2 h
  · intro s h
    constructor
    · simp only [sosStep]
      split
      · exact h
      · exact h
    · simp only [sosStep]
      split
      · exact h
      · exact h
  · intro s
    simp only [sosStep]
    split
    · exact Or.inl rfl
    · exact Or.inr rfl

/-- The honest path to a call: open the dialog, press Call Emergency, then
press Confirm Call. -/
def demoSOSTrace : List SOSEvent :=
  [SOSEvent.pressSOS, SOSEvent.pressCallEmergency, SOSEvent.pressConfirmCall]

/-- C10 witness: the demonstration trace ends in the calling state and
decomposes around the two confirmation presses; Cancel and Go Back from the
initial state stay non-calling. -/
theorem C10_call_requires_two_confirmations_witness :
    (sosRun demoSOSTrace).isCalling = true ∧
    (∃ l₁ l₂ l₃,
      demoSOSTrace = l₁ ++ SOSEvent.pressCallEmergency ::
        (l₂ ++ SOSEvent.pressConfirmCall :: l₃)) ∧
    sosInit.isCalling = false ∧
    (sosStep sosInit SOSEvent.pressCancel).isCalling = false ∧
    (sosStep sosInit SOSEvent.pressGoBack).isCalling = false :=
  ⟨by decide,
   C10_call_requires_two_confirmations.1 demoSOSTrace (by decide),
   rfl,
   (C10_call_requires_two_confirmations.2.1 sosInit rfl).1,
   (C10_call_requires_two_confirmations.2.1 sosInit rfl).2⟩

end MedTech
